import Mathlib

/-!
Verification of the relationship persistence and loading engine of the
falkordb-py-orm repository, as a shallow embedding in Lean 4.

The embedding follows the Python source files:
  falkordb_orm/metadata.py      (EntityMetadata, PropertyMetadata, RelationshipMetadata)
  falkordb_orm/mapper.py        (EntityMapper.map_to_properties, map_to_cypher_create)
  falkordb_orm/relationships.py (LazyList, RelationshipManager)
  falkordb_orm/repository.py    (Repository.save, Repository.find_all)
  falkordb_orm/query_builder.py (QueryBuilder.build_eager_loading_query_all)

Machine integers do not occur on the modelled paths; node identities are
Nat.  Store values are opaque (GVal).  The Python object heap is modelled
as an association list from object-identity tokens (Nat) to entity states;
the graph store is modelled by the World structure, which records the list
of issued queries, the created edges, and a counter for fresh node ids.
Store failures are injected through World.failAt: the query whose position
in the log equals failAt raises a store error, which models a backend
failure at that call of graph.query.
-/

namespace FalkorOrm

/-- Opaque graph-storable value (the engine never inspects property values
on the modelled paths; type conversion is treated as the identity). -/
inductive GVal : Type
  | gstr (s : String)
  | gint (z : Int)
deriving DecidableEq, Repr

/-- Relationship direction, metadata.py RelationshipMetadata.direction.
The Python field is a string restricted to these three values; an invalid
string raises in the query builder, which the inductive type excludes. -/
inductive Dir : Type
  | outgoing
  | incoming
  | both
deriving DecidableEq, Repr

/-- metadata.py RelationshipMetadata (fields used by the engine).
target_class resolution is abstracted to the Bool targetResolved: the
query builders skip a relationship whose target class has no metadata. -/
structure RelMeta : Type where
  pyName : String
  relType : String
  direction : Dir
  cascade : Bool
  isCollection : Bool
  targetResolved : Bool
deriving DecidableEq, Repr

/-- metadata.py PropertyMetadata (fields used by map_to_properties).
hasIdGen models id_generator being not None. -/
structure PropMeta : Type where
  pythonName : String
  graphName : String
  isId : Bool
  hasIdGen : Bool
deriving DecidableEq, Repr

/-- metadata.py EntityMetadata (fields used by the engine).  hasIdProp
models id_property being not None. -/
structure EMeta : Type where
  labels : List String
  properties : List PropMeta
  relationships : List RelMeta
  hasIdProp : Bool
deriving DecidableEq, Repr

/-- metadata.py EntityMetadata.is_relationship_field:
any(rel.python_name == name for rel in self.relationships). -/
def EMeta.isRelationshipField (meta : EMeta) (name : String) : Bool :=
  meta.relationships.any (fun r => r.pyName == name)

/-- metadata.py EntityMetadata.get_relationship_by_python_name. -/
def EMeta.findRel (meta : EMeta) (name : String) : Option RelMeta :=
  meta.relationships.find? (fun r => r.pyName == name)

/-! ## EntityMapper.map_to_properties (mapper.py lines 57-92)

The entity attribute namespace is passed as an association list from
python attribute name to an optional stored value; an absent key models
getattr(entity, name, None) returning None.  The Python dict keyed by
graph_name is modelled as the list of (graph_name, value) pairs in
iteration order of metadata.properties. -/

/-- Loop body of map_to_properties over metadata.properties.  Mirrors the
source: skip relationship fields; the auto-generated-id branch re-reads
the value and skips when it is None; then skip None values and store the
converted value under graph_name (conversion modelled as identity). -/
def mapToPropsGo (meta : EMeta) (attrs : List (String × GVal)) :
    List PropMeta → List (String × GVal)
  | [] => []
  | p :: rest =>
    if meta.isRelationshipField p.pythonName then
      mapToPropsGo meta attrs rest
    else if p.isId && p.hasIdGen && (attrs.lookup p.pythonName).isNone then
      mapToPropsGo meta attrs rest
    else
      match attrs.lookup p.pythonName with
      | none => mapToPropsGo meta attrs rest
      | some v => (p.graphName, v) :: mapToPropsGo meta attrs rest

/-- mapper.py EntityMapper.map_to_properties. -/
def mapToProperties (meta : EMeta) (attrs : List (String × GVal)) :
    List (String × GVal) :=
  mapToPropsGo meta attrs meta.properties

/-- Loop of map_to_cypher_create (mapper.py lines 114-125) that produces
the SET clause list: a property contributes the pair
(graph_name, properties.get(graph_name, properties.get(python_name)))
when either of its names is a key of the property map.  The intern()
wrapping only changes the query text, never the parameter values. -/
def createClausesGo (props : List (String × GVal)) :
    List PropMeta → List (String × GVal)
  | [] => []
  | p :: rest =>
    if (props.lookup p.pythonName).isSome || (props.lookup p.graphName).isSome then
      match (props.lookup p.graphName).or (props.lookup p.pythonName) with
      | some v => (p.graphName, v) :: createClausesGo props rest
      | none => createClausesGo props rest
    else createClausesGo props rest

/-- mapper.py EntityMapper.map_to_cypher_create, restricted to the SET
clause parameter list (query text construction carries no further entity
data). -/
def mapToCypherCreateClauses (meta : EMeta) (attrs : List (String × GVal)) :
    List (String × GVal) :=
  createClausesGo (mapToProperties meta attrs) meta.properties

/-! ## The collection Loading Proxy (relationships.py LazyList)

The store handle is reduced to what the proxy observes: the rows the
relationship-load query would return (as hydrated target node ids) and a
counter of queries issued on the handle.  graph.query increments the
counter. -/

/-- The graph handle as seen by one LazyList: the result rows of its load
query and the number of queries issued so far. -/
structure LoadStore : Type where
  rows : List Nat
  queryCount : Nat
deriving DecidableEq, Repr

/-- relationships.py LazyList state: _loaded and _items (the constructor
sets _loaded = False and _items = []). -/
structure LazyListP : Type where
  loaded : Bool
  items : List Nat
deriving DecidableEq, Repr

/-- LazyList.__init__: no query is issued, the state is unloaded. -/
def mkLazyList : LazyListP := ⟨false, []⟩

/-- relationships.py LazyList._load: return immediately when _loaded;
otherwise issue exactly one query, cache every hydrated row in _items and
set _loaded. -/
def LazyListP.load (ll : LazyListP) (st : LoadStore) : LazyListP × LoadStore :=
  if ll.loaded then (ll, st)
  else (⟨true, st.rows⟩, { st with queryCount := st.queryCount + 1 })

/-- LazyList.__iter__: _load then iterate the cache. -/
def LazyListP.iterL (ll : LazyListP) (st : LoadStore) :
    List Nat × LazyListP × LoadStore :=
  let p := ll.load st
  (p.1.items, p.1, p.2)

/-- LazyList.__len__: _load then measure the cache. -/
def LazyListP.lenL (ll : LazyListP) (st : LoadStore) :
    Nat × LazyListP × LoadStore :=
  let p := ll.load st
  (p.1.items.length, p.1, p.2)

/-- LazyList.__getitem__: _load then index the cache (an out-of-range
index raises IndexError in Python, modelled by none). -/
def LazyListP.getItemL (ll : LazyListP) (st : LoadStore) (i : Nat) :
    Option Nat × LazyListP × LoadStore :=
  let p := ll.load st
  (p.1.items.get? i, p.1, p.2)

/-- LazyList.__contains__: _load then test membership in the cache. -/
def LazyListP.containsL (ll : LazyListP) (st : LoadStore) (x : Nat) :
    Bool × LazyListP × LoadStore :=
  let p := ll.load st
  (p.1.items.contains x, p.1, p.2)

/-! ## The save-side world

The Python object heap maps object-identity tokens (id(obj) in the source)
to entity states.  The entity metadata of type(obj) is stored with the
entity.  The store records issued queries and created edges; CREATE
returns a fresh internal node id taken from nextId. -/

/-- A relationship field value as read by getattr in save_relationships:
None, a LazyList or LazySingle proxy (with its _loaded flag), a list or
tuple of entity objects, a single entity object, or any other object. -/
inductive Value : Type
  | vnone
  | vproxy (loaded : Bool)
  | vlist (toks : List Nat)
  | vtuple (toks : List Nat)
  | vref (tok : Nat)
  | vother
deriving DecidableEq, Repr

/-- A directed typed edge held by the store, recorded with the declared
direction of the pattern that created it. -/
structure Edge : Type where
  src : Nat
  dst : Nat
  relType : String
  dir : Dir
deriving DecidableEq, Repr

/-- The shape of each query issued through graph.query on the modelled
paths. -/
inductive QueryKind : Type
  | qCreateNode
  | qMergeNode (nid : Nat)
  | qCreateEdge (src dst : Nat) (relType : String)
  | qMatchAll
  | qEagerAll (cols : List String)
  | qMatchById (eid : Nat)
  | qEagerById (eid : Nat) (cols : List String)
deriving DecidableEq, Repr

/-- One Python entity object: its id attribute, the metadata of its type,
and its relationship attribute values. -/
structure EntityState : Type where
  entId : Option Nat
  meta : EMeta
  fields : List (String × Value)
deriving DecidableEq, Repr

/-- A result row of an eager-load query: the base node (by internal id)
and, per named relationship column, the collected target node ids. -/
structure Row : Type where
  nodeId : Option Nat
  relCols : List (String × List Nat)
deriving DecidableEq, Repr

/-- The object heap and the graph store.  failAt injects a backend
failure: the query whose 0-based position in the log equals failAt raises
a store error after being issued.  trackerLog instruments the engine: it
records, at each entry of save_relationships, the content of the entity
tracker that call begins with.  readRows are the rows the store returns
to read queries. -/
structure World : Type where
  heap : List (Nat × EntityState)
  nextId : Nat
  edges : List Edge
  queryLog : List QueryKind
  trackerLog : List (List (Nat × Nat))
  failAt : Option Nat
  readRows : List Row
deriving DecidableEq, Repr

/-- Errors surfacing from the engine.  queryExc models QueryException
wrapping its cause (raise QueryException(...) from e); storeErr models a
backend failure raised by graph.query; attrErr models AttributeError;
invalidEntityErr models InvalidEntityException; outOfFuel is the
embedding artifact marking exhausted recursion fuel and stands for
nontermination, so it is never caught by the except blocks. -/
inductive Err : Type
  | storeErr
  | outOfFuel
  | attrErr
  | invalidEntityErr
  | badToken
  | queryExc (cause : Err)
deriving DecidableEq, Repr

/-- The engine monad: possible failure over explicit world state, so the
world (committed writes, query log) survives an error. -/
abbrev M (α : Type) : Type := ExceptT Err (StateM World) α

/-- Run an engine computation on a world, returning the outcome and the
final world. -/
def runM {α : Type} (m : M α) (w : World) : Except Err α × World :=
  (ExceptT.run m).run w

/-- Heap lookup of an entity object by identity token. -/
def World.findEnt (w : World) (tok : Nat) : Option EntityState :=
  w.heap.lookup tok

/-- Replace the entity state stored under a token. -/
def World.setEnt (w : World) (tok : Nat) (st : EntityState) : World :=
  { w with heap := w.heap.map (fun kv => if kv.1 = tok then (kv.1, st) else kv) }

/-- Assign a relationship attribute on a heap entity (models a plain
Python attribute assignment between two save calls). -/
def World.setField (w : World) (tok : Nat) (name : String) (v : Value) : World :=
  { w with
    heap := w.heap.map (fun kv =>
      if kv.1 = tok then
        (kv.1, { kv.2 with
          fields := (name, v) :: kv.2.fields.filter (fun f => f.1 ≠ name) })
      else kv) }

/-- graph.query: append the query to the log, then fail when the injected
failure position is reached. -/
def issueQuery (q : QueryKind) : M Unit := do
  let w ← get
  let pos := w.queryLog.length
  set { w with queryLog := w.queryLog ++ [q] }
  if w.failAt = some pos then throw Err.storeErr else pure ()

/-- RelationshipManager._create_relationship_edge: build and run the edge
creation query; on success the store holds the new edge. -/
def createEdgeQ (srcId tid : Nat) (rel : RelMeta) : M Unit := do
  issueQuery (QueryKind.qCreateEdge srcId tid rel.relType)
  modify fun w => { w with edges := w.edges ++ [⟨srcId, tid, rel.relType, rel.direction⟩] }

/-- RelationshipManager._delete_relationship_edges (relationships.py
line 366) calls self._query_builder.build_relationship_delete_query, a
method QueryBuilder does not define anywhere in the repository, so the
call raises AttributeError before any query is issued. -/
def deleteRelationshipEdges (_srcId : Nat) (_rel : RelMeta) : M Unit :=
  throw Err.attrErr

/-- The skip condition of save_relationships (relationships.py lines
269-274): the field value is None, or isinstance of LazyList or
LazySingle; the isinstance test does not consult the _loaded flag. -/
def fieldSkipped : Value → Bool
  | Value.vnone => true
  | Value.vproxy _ => true
  | _ => false

/-- The shape test of the collection branch (relationships.py line 282):
isinstance(rel_value, (list, tuple)). -/
def isListOrTuple : Value → Bool
  | Value.vlist _ => true
  | Value.vtuple _ => true
  | _ => false

/-- Tags for the mutually recursive save operations, so the whole
recursion is one fuel-structural function the kernel can evaluate. -/
inductive Call : Type
  | cRepoSave (tok : Nat)
  | cSaveRels (tracker : List (Nat × Nat)) (tok srcId : Nat) (meta : EMeta)
      (isUpdate : Bool)
  | cFields (rels : List RelMeta) (tok srcId : Nat) (isUpdate : Bool)
  | cField (rel : RelMeta) (srcId : Nat) (v : Value) (isUpdate : Bool)
  | cTargets (ts : List Nat) (rel : RelMeta) (srcId : Nat)
  | cGetOrSave (t : Nat) (rel : RelMeta)

/-- Result of one call: unit for the save operations, an optional target
id for _get_or_save_related_entity. -/
inductive Res : Type
  | rUnit
  | rOpt (o : Option Nat)
deriving DecidableEq, Repr

/-- The save engine.  Each constructor of Call mirrors one source
function; every recursive call spends one unit of fuel, and exhausted
fuel raises the outOfFuel marker (standing for nontermination).

cRepoSave = Repository.save (repository.py lines 47-97): read the id
attribute; CREATE for a fresh entity or MERGE for one carrying an id;
assign the returned node id when freshly created; then hand the entity to
save_relationships WITHOUT the is_update flag (the source never passes
it, so it keeps its default False); any exception except the fuel marker
is wrapped in QueryException.  Each Repository constructs its own
RelationshipManager whose _entity_tracker starts empty, and the finally
block of save_relationships removes the key it added, so every
save_relationships invocation begins with an empty tracker; the cascade
path constructs a brand-new Repository (relationships.py line 333), hence
also a fresh manager.

cSaveRels = RelationshipManager.save_relationships (relationships.py
lines 244-298): record the incoming tracker (instrumentation), return
when the (token, source id) key is already tracked, otherwise add it and
process each declared relationship.

cField: the per-field body — skip None and proxy values; on is_update
call _delete_relationship_edges first; for a collection field iterate a
list or tuple and silently ignore any other shape; for a single field a
non-entity value makes get_entity_metadata raise InvalidEntityException.

cGetOrSave = RelationshipManager._get_or_save_related_entity
(relationships.py lines 300-339): an entity carrying an id returns it; an
unsaved entity is cascade-saved through a new Repository when the
declaration has cascade, else None is returned. -/
def exec : Nat → Call → M Res
  | 0, _ => throw Err.outOfFuel
  | n + 1, c =>
    match c with
    | Call.cRepoSave tok =>
      tryCatch
        (do
          let w ← get
          match w.findEnt tok with
          | none => throw Err.badToken
          | some ent =>
            let meta := ent.meta
            let hasId := meta.hasIdProp && ent.entId.isSome
            let nodeId ←
              if hasId then do
                issueQuery (QueryKind.qMergeNode (ent.entId.getD 0))
                pure (ent.entId.getD 0)
              else do
                issueQuery QueryKind.qCreateNode
                let w2 ← get
                set { w2 with nextId := w2.nextId + 1 }
                pure w2.nextId
            if !hasId && meta.hasIdProp then
              modify fun w3 => w3.setEnt tok { ent with entId := some nodeId }
            else pure ()
            if meta.relationships.isEmpty then pure (Res.rUnit)
            else exec n (Call.cSaveRels [] tok nodeId meta false))
        (fun e =>
          match e with
          | Err.outOfFuel => throw Err.outOfFuel
          | _ => throw (Err.queryExc e))
    | Call.cSaveRels tracker tok srcId meta isUpdate => do
      modify fun w => { w with trackerLog := w.trackerLog ++ [tracker] }
      let key : Nat × Nat := (tok, srcId)
      if tracker.contains key then pure Res.rUnit
      else
        exec n (Call.cFields meta.relationships tok srcId isUpdate)
    | Call.cFields rels tok srcId isUpdate =>
      match rels with
      | [] => pure Res.rUnit
      | rel :: rest => do
        let w ← get
        let v :=
          match w.findEnt tok with
          | some ent => (ent.fields.lookup rel.pyName).getD Value.vnone
          | none => Value.vnone
        let _ ← exec n (Call.cField rel srcId v isUpdate)
        exec n (Call.cFields rest tok srcId isUpdate)
    | Call.cField rel srcId v isUpdate =>
      if fieldSkipped v then pure Res.rUnit
      else do
        if isUpdate then deleteRelationshipEdges srcId rel else pure ()
        if rel.isCollection then
          match v with
          | Value.vlist ts => exec n (Call.cTargets ts rel srcId)
          | Value.vtuple ts => exec n (Call.cTargets ts rel srcId)
          | _ => pure Res.rUnit
        else
          match v with
          | Value.vref t => do
            let r ← exec n (Call.cGetOrSave t rel)
            match r with
            | Res.rOpt (some tid) => do
              createEdgeQ srcId tid rel
              pure Res.rUnit
            | _ => pure Res.rUnit
          | _ => throw Err.invalidEntityErr
    | Call.cTargets ts rel srcId =>
      match ts with
      | [] => pure Res.rUnit
      | t :: rest => do
        let r ← exec n (Call.cGetOrSave t rel)
        match r with
        | Res.rOpt (some tid) => createEdgeQ srcId tid rel
        | _ => pure ()
        exec n (Call.cTargets rest rel srcId)
    | Call.cGetOrSave t rel => do
      let w ← get
      match w.findEnt t with
      | none => throw Err.badToken
      | some ent =>
        if ent.meta.hasIdProp then
          match ent.entId with
          | some i => pure (Res.rOpt (some i))
          | none =>
            if rel.cascade then do
              let _ ← exec n (Call.cRepoSave t)
              let w2 ← get
              match w2.findEnt t with
              | some ent2 => pure (Res.rOpt ent2.entId)
              | none => pure (Res.rOpt none)
            else pure (Res.rOpt none)
        else pure (Res.rOpt none)

/-- Repository.save on an entity object. -/
def repoSave (fuel tok : Nat) : M Res :=
  exec fuel (Call.cRepoSave tok)

/-- RelationshipManager.save_relationships. -/
def saveRelationships (fuel : Nat) (tracker : List (Nat × Nat))
    (tok srcId : Nat) (meta : EMeta) (isUpdate : Bool) : M Res :=
  exec fuel (Call.cSaveRels tracker tok srcId meta isUpdate)

/-- The body of save_relationships for one relationship field value. -/
def processRelField (fuel : Nat) (rel : RelMeta) (srcId : Nat) (v : Value)
    (isUpdate : Bool) : M Res :=
  exec fuel (Call.cField rel srcId v isUpdate)

/-- RelationshipManager._get_or_save_related_entity. -/
def getOrSave (fuel t : Nat) (rel : RelMeta) : M Res :=
  exec fuel (Call.cGetOrSave t rel)

/-! ## The Eager-Load Planner and Repository.find_all -/

/-- The structure of the one query emitted by
QueryBuilder.build_eager_loading_query_all: the base MATCH labels and the
list of fetch hints that contribute an OPTIONAL MATCH plus a collected,
deduplicated result column named after the hint. -/
structure EagerQuery : Type where
  baseLabels : List String
  hintCols : List String
deriving DecidableEq, Repr

/-- The named columns of the RETURN clause: the base node column n
followed by one collect(DISTINCT ...) column per contributing hint. -/
def EagerQuery.returnCols (q : EagerQuery) : List String :=
  "n" :: q.hintCols

/-- query_builder.py build_eager_loading_query_all (lines 500-561): one
base MATCH; for each hint, skip it unless it names a declared
relationship whose target class has metadata (and whose direction is one
of the three valid values, which the Dir type already guarantees);
otherwise add an OPTIONAL MATCH and a collect column named after the
hint. -/
def buildEagerLoadingQueryAll (meta : EMeta) (fetch : List String) : EagerQuery :=
  { baseLabels := meta.labels,
    hintCols := fetch.filter (fun h =>
      match meta.findRel h with
      | some r => r.targetResolved
      | none => false) }

/-- A relationship attribute of a hydrated entity: a fresh lazy proxy, an
eagerly assigned list of target ids, or an eagerly assigned optional
target id. -/
inductive HRel : Type
  | hproxy
  | hlist (toks : List Nat)
  | hsingle (tok : Option Nat)
deriving DecidableEq, Repr

/-- A hydrated entity: its id attribute and its relationship attributes.
Property hydration carries no further queries and is outside the claims,
so it is omitted. -/
structure HEnt : Type where
  hid : Option Nat
  rels : List (String × HRel)
deriving DecidableEq, Repr

/-- mapper.py map_from_node followed by _initialize_lazy_relationships:
hydration is pure — it reads the row, and when the node id is present it
attaches one unloaded proxy per relationship whose target class is
resolved.  No query is issued. -/
def mapFromRowBase (meta : EMeta) (r : Row) : HEnt :=
  { hid := r.nodeId,
    rels :=
      if r.nodeId.isSome then
        (meta.relationships.filter (fun rel => rel.targetResolved)).map
          (fun rel => (rel.pyName, HRel.hproxy))
      else [] }

/-- setattr of a relationship attribute during eager hydration. -/
def HEnt.setHRel (e : HEnt) (name : String) (v : HRel) : HEnt :=
  { e with rels := (name, v) :: e.rels.filter (fun kv => kv.1 ≠ name) }

/-- mapper.py map_with_relationships (lines 352-427): hydrate the base
entity, then for each fetch hint whose column is present and whose
relationship metadata resolves, assign the hydrated target list (MANY) or
its first element or none (SINGLE) directly on the entity, bypassing the
proxy.  Pure: no query is issued. -/
def mapWithRelationshipsE (meta : EMeta) (fetch : List String) (r : Row) : HEnt :=
  fetch.foldl
    (fun e h =>
      match r.relCols.lookup h with
      | none => e
      | some nodes =>
        match meta.findRel h with
        | none => e
        | some rel =>
          if rel.targetResolved then
            e.setHRel h (if rel.isCollection then HRel.hlist nodes
                         else HRel.hsingle nodes.head?)
          else e)
    (mapFromRowBase meta r)

/-- repository.py Repository.find_all (lines 156-198): with fetch hints
(a nonempty list) build the one eager query, run it once and hydrate each
row with its relationships; without hints run the plain MATCH once and
hydrate each row with lazy proxies.  Either path issues exactly one
query; any exception is wrapped in QueryException. -/
def findAllM (meta : EMeta) (fetch : List String) : M (List HEnt) :=
  tryCatch
    (match fetch with
     | [] => do
       issueQuery QueryKind.qMatchAll
       let w ← get
       pure (w.readRows.map (fun r => mapFromRowBase meta r))
     | _ :: _ => do
       let q := buildEagerLoadingQueryAll meta fetch
       issueQuery (QueryKind.qEagerAll q.returnCols)
       let w ← get
       pure (w.readRows.map (fun r => mapWithRelationshipsE meta fetch r)))
    (fun e =>
      match e with
      | Err.outOfFuel => throw Err.outOfFuel
      | _ => throw (Err.queryExc e))

/-- query_builder.py build_eager_loading_query (lines 430-498): the
single-entity variant of the eager query.  Its hint filtering and column
structure are identical to build_eager_loading_query_all; it only adds an
id filter to the WHERE clause, carried in the query parameters. -/
def buildEagerLoadingQueryById (meta : EMeta) (fetch : List String) : EagerQuery :=
  buildEagerLoadingQueryAll meta fetch

/-- repository.py Repository.find_by_id (lines 111-154): with fetch
hints build the one eager query filtered to the id, run it once and
hydrate the first row with its relationships; without hints run the
MATCH-by-id once and hydrate the first row with lazy proxies.  An empty
result set returns None rather than raising; any exception is wrapped in
QueryException. -/
def findByIdM (meta : EMeta) (eid : Nat) (fetch : List String) : M (Option HEnt) :=
  tryCatch
    (match fetch with
     | [] => do
       issueQuery (QueryKind.qMatchById eid)
       let w ← get
       match w.readRows with
       | [] => pure none
       | r :: _ => pure (some (mapFromRowBase meta r))
     | _ :: _ => do
       let q := buildEagerLoadingQueryById meta fetch
       issueQuery (QueryKind.qEagerById eid q.returnCols)
       let w ← get
       match w.readRows with
       | [] => pure none
       | r :: _ => pure (some (mapWithRelationshipsE meta fetch r)))
    (fun e =>
      match e with
      | Err.outOfFuel => throw Err.outOfFuel
      | _ => throw (Err.queryExc e))

/-! ## Concrete scenario worlds

Object-identity tokens 0, 1, ... and the starting internal node id 100
are canonical representatives: the engine treats both as opaque labels.
Entity property values never enter the relationship engine, so the
scenario entities carry only their relationship fields; the edge-type
name is left as a parameter wherever the scenario does not depend on
it. -/

/-- A MANY, OUTGOING relationship declaration on the field friends, as in
the Person test entity of tests/test_cascade_save.py. -/
def knowsRel (rt : String) (casc : Bool) : RelMeta :=
  { pyName := "friends", relType := rt, direction := Dir.outgoing,
    cascade := casc, isCollection := true, targetResolved := true }

/-- Metadata of a Person-like entity: generated id and the friends
relationship. -/
def personMeta (rt : String) (casc : Bool) : EMeta :=
  { labels := ["Person"], properties := [], relationships := [knowsRel rt casc],
    hasIdProp := true }

/-- A SINGLE, OUTGOING, cascade=false relationship declaration on the
field company, as in the Employee test entity. -/
def worksForRel (rt : String) : RelMeta :=
  { pyName := "company", relType := rt, direction := Dir.outgoing,
    cascade := false, isCollection := false, targetResolved := true }

/-- Metadata of an Employee-like entity with the single company
relationship. -/
def employeeMeta (rt : String) : EMeta :=
  { labels := ["Employee"], properties := [], relationships := [worksForRel rt],
    hasIdProp := true }

/-- Metadata of an entity with no relationships (a Company). -/
def plainMeta : EMeta :=
  { labels := ["Company"], properties := [], relationships := [], hasIdProp := true }

/-- A fresh world over the given heap: empty store, next internal node
id 100, no injected failure. -/
def baseWorld (heap : List (Nat × EntityState)) : World :=
  { heap := heap, nextId := 100, edges := [], queryLog := [], trackerLog := [],
    failAt := none, readRows := [] }

/-- Two unsaved Person entities in a circular friendship:
A.friends=[B] and B.friends=[A], both cascade=true. -/
def mutualWorld (rt : String) : World :=
  baseWorld
    [(0, { entId := none, meta := personMeta rt true,
           fields := [("friends", Value.vlist [1])] }),
     (1, { entId := none, meta := personMeta rt true,
           fields := [("friends", Value.vlist [0])] })]

/-- An unsaved Person A with friends=[B] where B is unsaved with an empty
friends list; saving A cascade-saves B, so save_relationships runs twice
(once per manager). -/
def chainWorld (rt : String) : World :=
  baseWorld
    [(0, { entId := none, meta := personMeta rt true,
           fields := [("friends", Value.vlist [1])] }),
     (1, { entId := none, meta := personMeta rt true,
           fields := [("friends", Value.vlist [])] })]

/-- An unsaved Person A with friends=[B, C], where B, C and D are already
persisted with ids 11, 12 and 13. -/
def updateWorld (rt : String) : World :=
  baseWorld
    [(0, { entId := none, meta := personMeta rt true,
           fields := [("friends", Value.vlist [1, 2])] }),
     (1, { entId := some 11, meta := plainMeta, fields := [] }),
     (2, { entId := some 12, meta := plainMeta, fields := [] }),
     (3, { entId := some 13, meta := plainMeta, fields := [] })]

/-- Save A with friends=[B, C], then assign friends=[D] and save again
through the same repository, as in
tests/test_relationship_updates.py test_update_collection_relationship_remove_item. -/
def updateRun (rt : String) : Except Err Res × World :=
  let first := runM (repoSave 20 0) (updateWorld rt)
  runM (repoSave 20 0) (first.2.setField 0 "friends" (Value.vlist [3]))

/-- A persisted Person (id 5) whose friends field holds a collection
Loading Proxy that has already loaded (its _loaded flag is True). -/
def loadedProxyWorld (rt : String) : World :=
  baseWorld
    [(0, { entId := some 5, meta := personMeta rt true,
           fields := [("friends", Value.vproxy true)] })]

/-- An unsaved Person A with friends=[B] for an unsaved, relationship-free
B, with the store failing at the third query (the edge creation): both
node creations commit, then the edge creation raises a store error. -/
def failWorld (rt : String) : World :=
  { baseWorld
      [(0, { entId := none, meta := personMeta rt true,
             fields := [("friends", Value.vlist [1])] }),
       (1, { entId := none, meta := plainMeta, fields := [] })]
    with failAt := some 2 }

/-- An unsaved Person A with friends=[B] (B persisted as id 11), with the
store failing at the very first query: the node CREATE of A itself. -/
def createFailWorld (rt : String) : World :=
  { baseWorld
      [(0, { entId := none, meta := personMeta rt true,
             fields := [("friends", Value.vlist [1])] }),
       (1, { entId := some 11, meta := plainMeta, fields := [] })]
    with failAt := some 0 }

/-- A persisted Person A (id 5) with friends=[B] (B persisted as id 11),
with the store failing at the very first query: the node MERGE of the
update path. -/
def mergeFailWorld (rt : String) : World :=
  { baseWorld
      [(0, { entId := some 5, meta := personMeta rt true,
             fields := [("friends", Value.vlist [1])] }),
       (1, { entId := some 11, meta := plainMeta, fields := [] })]
    with failAt := some 0 }

/-- An unsaved Employee A whose cascade=false company field references an
unsaved Company B. -/
def noCascadeWorld (rt : String) : World :=
  baseWorld
    [(0, { entId := none, meta := employeeMeta rt,
           fields := [("company", Value.vref 1)] }),
     (1, { entId := none, meta := plainMeta, fields := [] })]

/-- Metadata with an ordinary property, a pathological property sharing
its python name with a relationship, and that relationship — used to
witness the property-map invariant. -/
def propsMetaEx : EMeta :=
  { labels := ["Person"],
    properties := [{ pythonName := "name", graphName := "name", isId := false,
                     hasIdGen := false },
                   { pythonName := "friends", graphName := "friends", isId := false,
                     hasIdGen := false }],
    relationships := [knowsRel "KNOWS" true],
    hasIdProp := true }

/-- Attribute values for propsMetaEx, including a value sitting in the
relationship-named attribute. -/
def propsAttrsEx : List (String × GVal) :=
  [("name", GVal.gstr "Alice"), ("friends", GVal.gstr "BOGUS")]

/-! ## Execution lemmas for the engine monad -/

deriving instance DecidableEq for Except

/-- Running a bind: run the first computation, then the continuation on
the updated world; an error stops the chain but keeps the world. -/
theorem runM_bind {α β : Type} (m : M α) (f : α → M β) (w : World) :
    runM (m >>= f) w =
      (match runM m w with
       | (Except.ok a, w2) => runM (f a) w2
       | (Except.error e, w2) => (Except.error e, w2)) := by
  simp only [runM, ExceptT.run_bind]
  rcases h : (ExceptT.run m).run w with ⟨r, w2⟩
  cases r <;> simp [StateT.run_bind, h]

/-- Running a try/except block: an error from the body reaches the
handler together with the world at the moment it was raised. -/
theorem runM_tryCatch {α : Type} (m : M α) (h : Err → M α) (w : World) :
    runM (tryCatch m h) w =
      (match runM m w with
       | (Except.ok a, w2) => (Except.ok a, w2)
       | (Except.error e, w2) => runM (h e) w2) := by
  simp only [runM, tryCatch, tryCatchThe, MonadExceptOf.tryCatch, ExceptT.tryCatch,
    ExceptT.run, ExceptT.mk, StateT.run_bind]
  rcases hr : StateT.run m w with ⟨r, w2⟩
  cases r <;> simp [StateT.run, pure, StateT.pure]

/-- Reading the world changes nothing. -/
theorem runM_get (w : World) : runM (get : M World) w = (Except.ok w, w) := rfl

/-- Writing the world replaces it. -/
theorem runM_set (v w : World) : runM (set v : M Unit) w = (Except.ok (), v) := rfl

/-- Modifying the world applies the function. -/
theorem runM_modify (f : World → World) (w : World) :
    runM (modify f : M Unit) w = (Except.ok (), f w) := rfl

/-- A pure value leaves the world unchanged. -/
theorem runM_pure {α : Type} (a : α) (w : World) :
    runM (pure a : M α) w = (Except.ok a, w) := rfl

/-- Raising keeps the world (so committed writes survive the error). -/
theorem runM_throw {α : Type} (e : Err) (w : World) :
    runM (throw e : M α) w = (Except.error e, w) := rfl

/-- graph.query appends exactly one entry to the query log whether it
succeeds or raises the injected store failure. -/
theorem runM_issueQuery (q : QueryKind) (w : World) :
    runM (issueQuery q) w =
      ((if w.failAt = some w.queryLog.length then Except.error Err.storeErr
        else Except.ok ()),
       { w with queryLog := w.queryLog ++ [q] }) := by
  simp only [issueQuery, runM_bind, runM_get, runM_set]
  split <;> simp [runM_throw, runM_pure]

/-- find_all issues exactly one query on every path: the eager query when
fetch hints are given (Python truthiness: a nonempty list), the plain
MATCH otherwise.  Hydration is pure, so nothing else reaches the store,
and even a store failure leaves exactly the one issued query in the
log. -/
theorem runM_findAll_queryLog (meta : EMeta) (fetch : List String) (w : World) :
    (runM (findAllM meta fetch) w).2.queryLog = w.queryLog ++
      [match fetch with
       | [] => QueryKind.qMatchAll
       | _ :: _ =>
         QueryKind.qEagerAll (buildEagerLoadingQueryAll meta fetch).returnCols] := by
  cases fetch <;>
    (simp only [findAllM, runM_tryCatch, runM_bind, runM_issueQuery, runM_get, runM_pure]
     by_cases hf : w.failAt = some w.queryLog.length
     · simp [hf, runM_throw]
     · simp [hf, runM_pure])

/-- Every outcome of Repository.save is a success, the nontermination
marker, or an error wrapped in QueryException: the top-level try/except
of save wraps whatever escapes it — a failure at the node CREATE, the
node MERGE, an edge creation, or anywhere inside a cascade — so no store
error ever reaches the caller unwrapped, on any world and any entity. -/
theorem repoSave_wraps_errors (fuel tok : Nat) (w : World) :
    (runM (repoSave fuel tok) w).1 = Except.error Err.outOfFuel ∨
    (∃ a, (runM (repoSave fuel tok) w).1 = Except.ok a) ∨
    (∃ e, (runM (repoSave fuel tok) w).1 = Except.error (Err.queryExc e)) := by
  cases fuel with
  | zero => left; rfl
  | succ n =>
    simp only [repoSave, exec]
    rw [runM_tryCatch]
    split
    · rename_i a w2 heq
      right; left; exact ⟨a, rfl⟩
    · rename_i e w2 heq
      cases e <;> first | (left; rfl) | (right; right; exact ⟨_, rfl⟩)

/-- find_all either returns its hydrated rows or surfaces the store
failure of its one query wrapped in QueryException, on any world. -/
theorem findAll_store_failure_wrapped (meta : EMeta) (fetch : List String)
    (w : World) :
    (∃ rows, (runM (findAllM meta fetch) w).1 = Except.ok rows) ∨
    (runM (findAllM meta fetch) w).1 = Except.error (Err.queryExc Err.storeErr) := by
  cases fetch with
  | nil =>
    simp only [findAllM, runM_tryCatch, runM_bind, runM_issueQuery, runM_get, runM_pure]
    by_cases hf : w.failAt = some w.queryLog.length
    · right; simp [hf, runM_throw]
    · left
      refine ⟨w.readRows.map (fun r => mapFromRowBase meta r), ?_⟩
      simp [hf, runM_pure]
  | cons h t =>
    simp only [findAllM, runM_tryCatch, runM_bind, runM_issueQuery, runM_get, runM_pure]
    by_cases hf : w.failAt = some w.queryLog.length
    · right; simp [hf, runM_throw]
    · left
      refine ⟨w.readRows.map (fun r => mapWithRelationshipsE meta (h :: t) r), ?_⟩
      simp [hf, runM_pure]

/-- find_by_id either returns its optional hydrated entity (None for an
empty result set, not an error) or surfaces the store failure of its one
query wrapped in QueryException, on any world. -/
theorem findById_store_failure_wrapped (meta : EMeta) (eid : Nat)
    (fetch : List String) (w : World) :
    (∃ res, (runM (findByIdM meta eid fetch) w).1 = Except.ok res) ∨
    (runM (findByIdM meta eid fetch) w).1 = Except.error (Err.queryExc Err.storeErr) := by
  cases fetch <;>
    (simp only [findByIdM, runM_tryCatch, runM_bind, runM_issueQuery, runM_get, runM_pure]
     by_cases hf : w.failAt = some w.queryLog.length
     · right; simp [hf, runM_throw]
     · left
       cases hrows : w.readRows <;> simp [hf, hrows, runM_pure])

/-- find_by_id issues exactly one query on every path and never retries:
the log grows by exactly the one MATCH-by-id or eager query, whether the
query succeeds or fails. -/
theorem runM_findById_queryLog (meta : EMeta) (eid : Nat) (fetch : List String)
    (w : World) :
    (runM (findByIdM meta eid fetch) w).2.queryLog = w.queryLog ++
      [match fetch with
       | [] => QueryKind.qMatchById eid
       | _ :: _ =>
         QueryKind.qEagerById eid (buildEagerLoadingQueryById meta fetch).returnCols] := by
  cases fetch <;>
    (simp only [findByIdM, runM_tryCatch, runM_bind, runM_issueQuery, runM_get, runM_pure]
     by_cases hf : w.failAt = some w.queryLog.length
     · simp [hf, runM_throw]
     · cases hrows : w.readRows <;> simp [hf, hrows, runM_pure])

/-! ## Structure lemmas for the property map (mapper.py) -/

/-- A successful association-list lookup returns one of the stored
values. -/
theorem lookup_mem_snd {l : List (String × GVal)} {k : String} {v : GVal}
    (h : l.lookup k = some v) : v ∈ l.map Prod.snd := by
  induction l with
  | nil => simp [List.lookup] at h
  | cons a t ih =>
    cases a with
    | mk k2 v2 =>
      simp only [List.lookup] at h
      split at h
      · cases h; simp
      · simp only [List.map, List.mem_cons]
        exact Or.inr (ih h)

/-- Every pair the map_to_properties loop emits originates in a property
of the traversed list whose python name is not a relationship field. -/
theorem mapToPropsGo_mem (meta : EMeta) (attrs : List (String × GVal)) :
    ∀ (props : List PropMeta) {gn : String} {v : GVal},
      (gn, v) ∈ mapToPropsGo meta attrs props →
      ∃ p, p ∈ props ∧ p.graphName = gn ∧
        meta.isRelationshipField p.pythonName = false := by
  intro props
  induction props with
  | nil => intro gn v h; simp [mapToPropsGo] at h
  | cons p rest ih =>
    intro gn v h
    rw [mapToPropsGo] at h
    split at h
    · obtain ⟨q, hq, h1, h2⟩ := ih h
      exact ⟨q, List.mem_cons_of_mem _ hq, h1, h2⟩
    · rename_i hrel
      split at h
      · obtain ⟨q, hq, h1, h2⟩ := ih h
        exact ⟨q, List.mem_cons_of_mem _ hq, h1, h2⟩
      · split at h
        · obtain ⟨q, hq, h1, h2⟩ := ih h
          exact ⟨q, List.mem_cons_of_mem _ hq, h1, h2⟩
        · rcases List.mem_cons.mp h with hh | hh
          · refine ⟨p, List.mem_cons_self _ _, ?_, ?_⟩
            · exact (congrArg Prod.fst hh).symm
            · simpa using hrel
          · obtain ⟨q, hq, h1, h2⟩ := ih hh
            exact ⟨q, List.mem_cons_of_mem _ hq, h1, h2⟩

/-- Every SET-clause parameter value of the create statement is a value
of the property map. -/
theorem createClausesGo_mem (props : List (String × GVal)) :
    ∀ (pl : List PropMeta) {gn : String} {v : GVal},
      (gn, v) ∈ createClausesGo props pl → v ∈ props.map Prod.snd := by
  intro pl
  induction pl with
  | nil => intro gn v h; simp [createClausesGo] at h
  | cons p rest ih =>
    intro gn v h
    rw [createClausesGo] at h
    split at h
    · split at h
      · rename_i v0 hor
        rcases List.mem_cons.mp h with hh | hh
        · have hv : v = v0 := congrArg Prod.snd hh
          subst hv
          rcases hga : props.lookup p.graphName with _ | v1
          · rw [hga] at hor
            simp only [Option.or] at hor
            exact lookup_mem_snd hor
          · rw [hga] at hor
            simp only [Option.or] at hor
            cases hor
            exact lookup_mem_snd hga
        · exact ih hh
      · exact ih h
    · exact ih h

/-! ## The claims -/

/-- C1: the claim states that re-saving an entity deletes all existing
edges of each written relationship before creating new ones, so that
after saving A with friends=[B, C] and re-saving with friends=[D] exactly
one KNOWS edge leaves A and it points to D.  The code does the opposite:
Repository.save (repository.py lines 88-92) calls save_relationships
without the is_update flag, so the deletion branch never runs (and the
method it would call, build_relationship_delete_query, does not even
exist on QueryBuilder).  This theorem evaluates the engine on the claim
scenario: after the second save THREE edges leave A — the stale edges to
B (id 11) and C (id 12) survive next to the new edge to D (id 13) — and
the query log contains no deletion of any kind.  The repository's own
test (test_update_collection_relationship_remove_item) asserts a DELETE
query is issued here, so the code contradicts its own test suite: a code
bug, not a spec error. -/
theorem c1_second_save_keeps_stale_edges (rt : String) :
    (updateRun rt).1 = Except.ok Res.rUnit ∧
    (updateRun rt).2.edges =
      [⟨100, 11, rt, Dir.outgoing⟩, ⟨100, 12, rt, Dir.outgoing⟩,
       ⟨100, 13, rt, Dir.outgoing⟩] ∧
    (updateRun rt).2.queryLog =
      [QueryKind.qCreateNode, QueryKind.qCreateEdge 100 11 rt,
       QueryKind.qCreateEdge 100 12 rt, QueryKind.qMergeNode 100,
       QueryKind.qCreateEdge 100 13 rt] :=
  ⟨rfl, rfl, rfl⟩

/-- C2 counterexample: the claim states one guard set is constructed per
top-level save and the SAME set is passed through every recursive cascade
save of that call tree — under which the inner save_relationships of the
cascade (B, the second tracker-log entry) would begin with a set already
containing the key (0, 100) added by the outer frame for A.  Evaluating
the cascade scenario shows the inner invocation begins with the EMPTY
set: the cascade path constructs a brand-new Repository whose
RelationshipManager holds a fresh _entity_tracker as instance state
(relationships.py lines 242 and 333), so no set is shared. -/
theorem c2_guard_not_shared_counterexample :
    (runM (repoSave 20 0) (chainWorld "KNOWS")).2.trackerLog = [[], []] ∧
    ¬ (0, 100) ∈ ((runM (repoSave 20 0) (chainWorld "KNOWS")).2.trackerLog.getD 1 []) := by
  decide

/-- C2 amended: the guard set is held as instance state of each
RelationshipManager (relationships.py line 242), one manager per
Repository; every cascade save constructs a new Repository with its own
manager (line 333), so each save_relationships invocation — top-level or
cascaded — begins with an empty guard set instead of sharing the
caller's, and the finally block removes the added key so the set is empty
again between successive saves through the same repository.  The cascade
still completes and creates the edge; termination rests on ids being
assigned before recursion, not on the shared set the claim describes. -/
theorem c2_guard_fresh_per_cascade (rt : String) :
    (runM (repoSave 20 0) (chainWorld rt)).1 = Except.ok Res.rUnit ∧
    (runM (repoSave 20 0) (chainWorld rt)).2.trackerLog = [[], []] ∧
    (runM (repoSave 20 0) (chainWorld rt)).2.edges = [⟨100, 101, rt, Dir.outgoing⟩] :=
  ⟨rfl, rfl, rfl⟩

/-- C3: mutual cascade friendship A.friends=[B], B.friends=[A], both
unsaved with cascade=true: saving A terminates and afterwards one edge of
the declared type runs from A to B and one from B to A.  Termination is
expressed through the fuel discipline: every recursive call of the
embedded engine consumes fuel and exhaustion raises the distinguished
outOfFuel marker, so an Except.ok result at fuel 20 shows the recursion
bottoms out (the guard here is that A receives its id before the cascade
into B, so B's back-reference to A resolves immediately).  Tokens 0, 1
and ids 100, 101 are canonical labels; the edge type is arbitrary.  A is
assigned id 100 and B id 101; the edge B→A (101→100) is created during
the cascade, then A→B (100→101). -/
theorem c3_mutual_cascade_terminates_both_edges (rt : String) :
    (runM (repoSave 20 0) (mutualWorld rt)).1 = Except.ok Res.rUnit ∧
    (runM (repoSave 20 0) (mutualWorld rt)).2.edges =
      [⟨101, 100, rt, Dir.outgoing⟩, ⟨100, 101, rt, Dir.outgoing⟩] ∧
    ((runM (repoSave 20 0) (mutualWorld rt)).2.findEnt 0).map (fun e => e.entId) =
      some (some 100) ∧
    ((runM (repoSave 20 0) (mutualWorld rt)).2.findEnt 1).map (fun e => e.entId) =
      some (some 101) :=
  ⟨rfl, rfl, rfl, rfl⟩

/-- C4 counterexample: the claim states a proxy that has already loaded
is processed like an ordinary value (its edges persisted/replaced), and
that only None or never-loaded proxies are skipped.  Evaluating a save of
a persisted entity whose friends field holds a LOADED proxy
(_loaded=True) shows the engine issues no statement for the field at all
— only the MERGE of the node itself — because the skip test
(relationships.py line 273) is a bare isinstance check that never
consults the _loaded flag, as the embedded fieldSkipped records. -/
theorem c4_loaded_proxy_still_skipped_counterexample :
    fieldSkipped (Value.vproxy true) = true ∧
    (runM (repoSave 20 0) (loadedProxyWorld "KNOWS")).1 = Except.ok Res.rUnit ∧
    (runM (repoSave 20 0) (loadedProxyWorld "KNOWS")).2.edges = [] ∧
    (runM (repoSave 20 0) (loadedProxyWorld "KNOWS")).2.queryLog =
      [QueryKind.qMergeNode 5] := by
  decide

/-- C4 amended: save_relationships skips a relationship field — touching
no edges and issuing no statements for it — exactly when the field value
is None or ANY Loading Proxy instance, loaded or not: the skip predicate
holds precisely of those values, and a skipped field leaves the world
untouched and raises nothing. -/
theorem c4_skip_iff_none_or_any_proxy :
    (∀ v : Value, fieldSkipped v = true ↔
      v = Value.vnone ∨ v = Value.vproxy true ∨ v = Value.vproxy false) ∧
    (∀ (fuel : Nat) (rel : RelMeta) (srcId : Nat) (v : Value) (isUpd : Bool) (w : World),
      fieldSkipped v = true →
      runM (processRelField (fuel + 1) rel srcId v isUpd) w = (Except.ok Res.rUnit, w)) := by
  constructor
  · intro v
    cases v with
    | vproxy b => cases b <;> simp [fieldSkipped]
    | _ => simp [fieldSkipped]
  · intro fuel rel srcId v isUpd w h
    simp [processRelField, exec, h, runM_pure]

/-- C4 amended, witness: a loaded proxy field is skipped with the world
unchanged at a concrete input. -/
theorem c4_skip_iff_none_or_any_proxy_witness :
    runM (processRelField 1 (knowsRel "KNOWS" true) 7 (Value.vproxy true) false)
      (baseWorld []) = (Except.ok Res.rUnit, baseWorld []) :=
  c4_skip_iff_none_or_any_proxy.2 0 (knowsRel "KNOWS" true) 7 (Value.vproxy true)
    false (baseWorld []) rfl

/-- C5 counterexample: the claim states store-level failures propagate
unwrapped, as the original store error.  Injecting a store failure at the
edge-creation query of a cascade save shows the caller receives the
error wrapped in QueryException (repository.py line 97 wraps every
exception of Repository.save; find_by_id and find_all wrap likewise), not
the bare store error. -/
theorem c5_store_error_wrapped_counterexample :
    (runM (repoSave 20 0) (failWorld "KNOWS")).1 =
      Except.error (Err.queryExc Err.storeErr) ∧
    (runM (repoSave 20 0) (failWorld "KNOWS")).1 ≠ Except.error Err.storeErr := by
  decide

/-- C5 amended: every store-level failure surfaces to the caller of save
and find wrapped in a QueryException chaining the original error, and the
engine performs no retry and no compensating rollback.  In order, the
conjuncts state: (1) universally over worlds, entities and fuel, every
outcome of Repository.save is a success, the nontermination marker, or a
QueryException-wrapped error — covering a failure at the node CREATE, the
node MERGE, an edge creation, and any site inside a cascade; (2) and (3)
universally over worlds, metadata and fetch hints, find_all and
find_by_id either return their hydrated result (None/empty for an empty
result set, not an error) or surface the store failure of their one query
wrapped in QueryException; (4) universally, find_by_id issues exactly one
query whether it succeeds or fails — no retry on the find path; then the
three failure sites of save concretely, each with an arbitrary edge type:
(5) an edge-creation failure during a cascade save surfaces wrapped while
the entities committed before the failure (A as id 100, the cascaded B as
id 101) keep their ids, the failing query appears exactly once with
nothing after it, and no compensating statement or edge exists; (6) a
failure of the node CREATE surfaces wrapped, the lone failed query is
issued once, no edge exists and the entity keeps no id; (7) a failure of
the node MERGE on the update path surfaces wrapped with the lone MERGE
issued once and no edge. -/
theorem c5_all_failures_wrapped_no_retry_no_rollback :
    (∀ (fuel tok : Nat) (w : World),
      (runM (repoSave fuel tok) w).1 = Except.error Err.outOfFuel ∨
      (∃ a, (runM (repoSave fuel tok) w).1 = Except.ok a) ∨
      (∃ e, (runM (repoSave fuel tok) w).1 = Except.error (Err.queryExc e))) ∧
    (∀ (meta : EMeta) (fetch : List String) (w : World),
      (∃ rows, (runM (findAllM meta fetch) w).1 = Except.ok rows) ∨
      (runM (findAllM meta fetch) w).1 = Except.error (Err.queryExc Err.storeErr)) ∧
    (∀ (meta : EMeta) (eid : Nat) (fetch : List String) (w : World),
      (∃ res, (runM (findByIdM meta eid fetch) w).1 = Except.ok res) ∨
      (runM (findByIdM meta eid fetch) w).1 =
        Except.error (Err.queryExc Err.storeErr)) ∧
    (∀ (meta : EMeta) (eid : Nat) (fetch : List String) (w : World),
      (runM (findByIdM meta eid fetch) w).2.queryLog.length =
        w.queryLog.length + 1) ∧
    (∀ rt : String,
      (runM (repoSave 20 0) (failWorld rt)).1 =
        Except.error (Err.queryExc Err.storeErr) ∧
      ((runM (repoSave 20 0) (failWorld rt)).2.findEnt 0).map (fun e => e.entId) =
        some (some 100) ∧
      ((runM (repoSave 20 0) (failWorld rt)).2.findEnt 1).map (fun e => e.entId) =
        some (some 101) ∧
      (runM (repoSave 20 0) (failWorld rt)).2.queryLog =
        [QueryKind.qCreateNode, QueryKind.qCreateNode,
         QueryKind.qCreateEdge 100 101 rt] ∧
      (runM (repoSave 20 0) (failWorld rt)).2.edges = []) ∧
    (∀ rt : String,
      (runM (repoSave 20 0) (createFailWorld rt)).1 =
        Except.error (Err.queryExc Err.storeErr) ∧
      (runM (repoSave 20 0) (createFailWorld rt)).2.queryLog =
        [QueryKind.qCreateNode] ∧
      (runM (repoSave 20 0) (createFailWorld rt)).2.edges = [] ∧
      ((runM (repoSave 20 0) (createFailWorld rt)).2.findEnt 0).map
        (fun e => e.entId) = some none) ∧
    (∀ rt : String,
      (runM (repoSave 20 0) (mergeFailWorld rt)).1 =
        Except.error (Err.queryExc Err.storeErr) ∧
      (runM (repoSave 20 0) (mergeFailWorld rt)).2.queryLog =
        [QueryKind.qMergeNode 5] ∧
      (runM (repoSave 20 0) (mergeFailWorld rt)).2.edges = []) := by
  refine ⟨repoSave_wraps_errors, findAll_store_failure_wrapped,
    findById_store_failure_wrapped, ?_, ?_, ?_, ?_⟩
  · intro meta eid fetch w
    rw [runM_findById_queryLog]
    simp
  · exact fun rt => ⟨rfl, rfl, rfl, rfl, rfl⟩
  · exact fun rt => ⟨rfl, rfl, rfl, rfl⟩
  · exact fun rt => ⟨rfl, rfl, rfl⟩

/-- C6: the collection Loading Proxy issues zero queries at construction
(the constructor never touches the store and leaves the state unloaded);
the first read access — iteration, length, indexing or containment, each
of which goes through _load — issues exactly one query and caches the
hydrated rows; loading the already-loaded proxy is the identity, so every
subsequent access issues zero additional queries and returns the same
cached sequence; and an empty result hydrates to the empty sequence
rather than an error. -/
theorem c6_lazy_list_one_query_then_cache (st : LoadStore) (x i c : Nat) :
    mkLazyList.loaded = false ∧
    (mkLazyList.load st).2.queryCount = st.queryCount + 1 ∧
    (mkLazyList.load st).1.items = st.rows ∧
    (mkLazyList.load st).1.load (mkLazyList.load st).2 = mkLazyList.load st ∧
    mkLazyList.iterL st = (st.rows, mkLazyList.load st) ∧
    mkLazyList.lenL st = (st.rows.length, mkLazyList.load st) ∧
    mkLazyList.getItemL st i = (st.rows.get? i, mkLazyList.load st) ∧
    mkLazyList.containsL st x = (st.rows.contains x, mkLazyList.load st) ∧
    (mkLazyList.load { rows := [], queryCount := c }).1.items = [] :=
  ⟨rfl, rfl, rfl, rfl, rfl, rfl, rfl, rfl, rfl⟩

/-- C7: find_all with fetch hints issues exactly one store query on every
world — so for any number of stored entities and related nodes — because
hydration (map_with_relationships over the returned rows) is pure; and
the one eager query carries one named collect column per requested
relationship that names a declared relationship with a resolved target
class. -/
theorem c7_find_all_one_query (meta : EMeta) (fetch : List String) (w : World) :
    (runM (findAllM meta fetch) w).2.queryLog.length = w.queryLog.length + 1 ∧
    (∀ (hint : String) (r : RelMeta), hint ∈ fetch → meta.findRel hint = some r →
      r.targetResolved = true →
      hint ∈ (buildEagerLoadingQueryAll meta fetch).returnCols) := by
  constructor
  · rw [runM_findAll_queryLog]; simp
  · intro hint r hmem hfind hres
    simp only [buildEagerLoadingQueryAll, EagerQuery.returnCols]
    refine List.mem_cons_of_mem _ (List.mem_filter.mpr ⟨hmem, ?_⟩)
    simp [hfind, hres]

/-- C7 witness: on a Person repository fetching friends over a concrete
world, the call appends exactly one query and the friends column is part
of the RETURN clause. -/
theorem c7_find_all_one_query_witness :
    (runM (findAllM (personMeta "KNOWS" true) ["friends"]) (baseWorld [])).2.queryLog.length =
      (baseWorld []).queryLog.length + 1 ∧
    "friends" ∈ (buildEagerLoadingQueryAll (personMeta "KNOWS" true) ["friends"]).returnCols :=
  ⟨(c7_find_all_one_query (personMeta "KNOWS" true) ["friends"] (baseWorld [])).1,
   (c7_find_all_one_query (personMeta "KNOWS" true) ["friends"] (baseWorld [])).2
     "friends" (knowsRel "KNOWS" true) (by decide) (by decide) (by decide)⟩

/-- C8: saving an entity with a cascade=false relationship to a target
that carries no id completes without raising, leaves the target's id
null, and creates no edge for that target: _get_or_save_related_entity
returns None for an unsaved target without cascade, and save_relationships
silently skips edge creation on None.  The edge-type name is arbitrary
and only the node-creation query of the source itself is issued. -/
theorem c8_cascade_false_unsaved_target_skipped (rt : String) :
    (runM (repoSave 20 0) (noCascadeWorld rt)).1 = Except.ok Res.rUnit ∧
    ((runM (repoSave 20 0) (noCascadeWorld rt)).2.findEnt 1).map (fun e => e.entId) =
      some none ∧
    (runM (repoSave 20 0) (noCascadeWorld rt)).2.edges = [] ∧
    (runM (repoSave 20 0) (noCascadeWorld rt)).2.queryLog = [QueryKind.qCreateNode] :=
  ⟨rfl, rfl, rfl, rfl⟩

/-- C9: the property map produced when serializing an entity never
contains a relationship field: every pair of map_to_properties originates
in a declared property whose python name is not a relationship field
(the loop skips exactly those), and every SET-clause parameter value of
the generated create statement is drawn from that relationship-free
property map, so no relationship field reaches a create/update
statement. -/
theorem c9_properties_exclude_relationship_fields :
    (∀ (meta : EMeta) (attrs : List (String × GVal)) (gn : String) (v : GVal),
      (gn, v) ∈ mapToProperties meta attrs →
      ∃ p, p ∈ meta.properties ∧ p.graphName = gn ∧
        meta.isRelationshipField p.pythonName = false) ∧
    (∀ (meta : EMeta) (attrs : List (String × GVal)) (gn : String) (v : GVal),
      (gn, v) ∈ mapToCypherCreateClauses meta attrs →
      v ∈ (mapToProperties meta attrs).map Prod.snd) := by
  constructor
  · intro meta attrs gn v h
    exact mapToPropsGo_mem meta attrs meta.properties h
  · intro meta attrs gn v h
    exact createClausesGo_mem (mapToProperties meta attrs) meta.properties h

/-- C9 witness: on metadata carrying a relationship-named attribute with
a value, the property map still only exposes the ordinary property. -/
theorem c9_properties_exclude_relationship_fields_witness :
    (∃ p, p ∈ propsMetaEx.properties ∧ p.graphName = "name" ∧
      propsMetaEx.isRelationshipField p.pythonName = false) ∧
    GVal.gstr "Alice" ∈ (mapToProperties propsMetaEx propsAttrsEx).map Prod.snd :=
  ⟨c9_properties_exclude_relationship_fields.1 propsMetaEx propsAttrsEx
     "name" (GVal.gstr "Alice") (by decide),
   c9_properties_exclude_relationship_fields.2 propsMetaEx propsAttrsEx
     "name" (GVal.gstr "Alice") (by decide)⟩

/-- C10: for a MANY relationship whose field value is neither a list nor
a tuple (a single entity object, a set, a generator, ...), a non-update
save_relationships pass over the field creates no edge and raises no
error — the isinstance(rel_value, (list, tuple)) test fails and the loop
silently continues, leaving the world untouched. -/
theorem c10_collection_non_list_value_ignored (fuel : Nat) (rel : RelMeta)
    (srcId : Nat) (v : Value) (w : World) (hcoll : rel.isCollection = true)
    (hv : isListOrTuple v = false) :
    runM (processRelField (fuel + 1) rel srcId v false) w = (Except.ok Res.rUnit, w) := by
  cases v with
  | vlist ts => simp [isListOrTuple] at hv
  | vtuple ts => simp [isListOrTuple] at hv
  | vnone => simp [processRelField, exec, fieldSkipped, runM_pure]
  | vproxy b => simp [processRelField, exec, fieldSkipped, runM_pure]
  | vref t =>
    simp [processRelField, exec, fieldSkipped, hcoll, runM_bind, runM_pure]
  | vother =>
    simp [processRelField, exec, fieldSkipped, hcoll, runM_bind, runM_pure]

/-- C10 witness: a non-list, non-tuple value (an arbitrary object) on a
MANY relationship is ignored at a concrete input. -/
theorem c10_collection_non_list_value_ignored_witness :
    runM (processRelField 1 (knowsRel "KNOWS" true) 7 Value.vother false)
      (baseWorld []) = (Except.ok Res.rUnit, baseWorld []) :=
  c10_collection_non_list_value_ignored 0 (knowsRel "KNOWS" true) 7 Value.vother
    (baseWorld []) rfl rfl

end FalkorOrm
